import Mathlib

/-!
Shallow embedding of the composite service-health aggregator of
`monitoring/api/routes/status.py` (auction-analytics repository).

Modelling conventions:
* Python machine time (`time.time()`, `_now_epoch()`) is carried as `Int`
  parameters; the source only ever compares or subtracts times.
* SQL, Redis and RPC round trips are modelled by a `Behavior` record that
  fixes, for one forced-compute run, the outcome of every awaited dependency
  call: `Except String α` is a call that either raises (with the exception's
  string rendering) or returns a value; `Option` mirrors SQL `NULL`/absent
  rows and Python `None`.
* Python dicts that carry JSON payloads (`metrics`) are embedded as
  association lists over a small JSON value type `JVal`.
* Python string slicing `str(e)[:200]` is `pyTruncate 200 e` (first 200
  characters).
* Module-level mutable state (`_STATUS_CACHE`, `_STATUS_CACHE_TS`,
  `_STATUS_REFRESH_IN_PROGRESS`) is threaded explicitly as a `CacheState`.
  Python float truthiness of `_STATUS_CACHE_TS` (`None` or `0` is falsy) is
  embedded by matching the `Option` and testing `t ≠ 0`.
-/

namespace Monitoring

/-- Service status strings used by `status.py`: "ok", "degraded", "down",
"unknown". -/
inductive Status where
  | ok
  | degraded
  | down
  | unknown
deriving DecidableEq, Repr

/-- The string the source stores for each status value. -/
def Status.text : Status → String
  | .ok => "ok"
  | .degraded => "degraded"
  | .down => "down"
  | .unknown => "unknown"

/-- JSON-like values appearing in the `metrics` dicts of `status.py`. -/
inductive JVal where
  | s (v : String)
  | i (v : Int)
  | null
  | arr (vs : List JVal)
  | obj (fields : List (String × JVal))

/-- One entry of the `services` array: the dicts built by `get_status` always
have exactly the keys `name`, `status`, `detail`, `metrics`. -/
structure ServiceResult where
  name : String
  status : Status
  detail : String
  metrics : List (String × JVal)

/-- The `thresholds` dict of the response (lines 265-271 / 245-252 of
`status.py`); read from environment variables with defaults
30, 120, 600, 1800, 100, 1000. -/
structure Thresholds where
  indexer_ok : Int
  indexer_warn : Int
  price_ok : Int
  price_warn : Int
  relay_warn : Int
  relay_crit : Int

/-- The default threshold values of `status.py`. -/
def defaultThresholds : Thresholds :=
  { indexer_ok := 30, indexer_warn := 120, price_ok := 600,
    price_warn := 1800, relay_warn := 100, relay_crit := 1000 }

/-- The response dict of `get_status`.  `stale : Option Bool` records whether
the `"stale"` key is present in the dict and, if so, its value: the
placeholder response (line 262) carries `"stale": True`, while the
forced-compute result dict (lines 458-469) has no `"stale"` key. -/
structure StatusSnapshot where
  generated_at : Int
  thresholds : Thresholds
  services : List ServiceResult
  stale : Option Bool

/-- Python string slicing `s[:n]`: the first `n` characters. -/
def pyTruncate (n : Nat) (s : String) : String := ⟨s.data.take n⟩

/-- Line 32-37 of `status.py`: `_status_from_age`. -/
def _status_from_age (age_sec ok warn : Int) : Status :=
  if age_sec ≤ ok then .ok
  else if age_sec ≤ warn then .degraded
  else .down

/-! ### Redis probe (`_probe_redis_status`, lines 101-181) -/

/-- Outcomes of every call the Redis probe can make during one invocation.
`installed` is whether `import redis` succeeded (line 13-16), `aioAvailable`
whether `import redis.asyncio` succeeded (17-20), `url` the value of
`_build_redis_url_for_status()` (its body only reads environment variables),
`streamKey` the `REDIS_STREAM_KEY` env value.  The `a*` fields are the async
client calls (lines 129-149), the `s*` fields the sync-fallback calls
(156-174); `syncTimedOut` is `asyncio.wait_for(..., timeout=0.75)` on line
177 raising; `outerTimedOut` is `asyncio.wait_for(_probe_redis_status(),
timeout=0.8)` on line 303 raising. -/
structure RedisBehavior where
  installed : Bool
  aioAvailable : Bool
  url : Option String
  streamKey : String
  aFromUrl : Except String Unit
  aXrevrange : Except String Unit
  aPing : Except String Bool
  sFromUrl : Except String Unit
  sXrevrange : Except String Unit
  sPing : Except String Bool
  syncTimedOut : Bool
  outerTimedOut : Bool

/-- Lines 101-181 of `status.py`: `_probe_redis_status`.  The returned dict
always has `name = "redis"` and `metrics = {}`; only `status` and `detail`
vary, so the embedding returns that pair.  (The `client.close()` on lines
146-149 is wrapped in its own try/except-pass and cannot affect the
result.) -/
def _probe_redis_status (rb : RedisBehavior) : Status × String :=
  if !rb.installed then (.unknown, "redis client not installed")
  else
    match rb.url with
    | none => (.unknown, "No Redis configuration found")
    | some _ =>
      if rb.aioAvailable then
        match rb.aFromUrl with
        | .error e => (.down, pyTruncate 200 e)
        | .ok _ =>
          match rb.aXrevrange with
          | .ok _ => (.ok, "xrevrange(" ++ rb.streamKey ++ ") ok")
          | .error _ =>
            match rb.aPing with
            | .ok pong => if pong then (.ok, "PONG") else (.down, "No response")
            | .error e2 => (.down, pyTruncate 200 e2)
      else
        if rb.syncTimedOut then (.unknown, "timeout")
        else
          match rb.sFromUrl with
          | .error e => (.down, pyTruncate 200 e)
          | .ok _ =>
            match rb.sXrevrange with
            | .ok _ => (.ok, "xrevrange(" ++ rb.streamKey ++ ") ok")
            | .error cmd_err =>
              match rb.sPing with
              | .ok pong => if pong then (.ok, "PONG") else (.down, "No response")
              | .error _ => (.down, pyTruncate 200 cmd_err)

/-! ### Dependency behaviors for one forced-compute run -/

/-- The outcome of every awaited dependency call made by the forced-compute
path of `get_status` (lines 283-456).
* `select1`: `db.execute(SELECT 1)` then `.scalar()` (line 291-292).
* `indexerRow`: the `indexer_state` aggregate query (330-336); the outer
  `Option` is `fetchone()` returning a row, the inner components are
  `MAX(updated_at)` (as epoch seconds) and `MAX(last_indexed_block)`, each
  possibly SQL NULL.
* `chainHead`: result of `asyncio.wait_for(_get_chain_head_block(), 1.0)`
  wrapped in try/except (343-346); `_get_chain_head_block` (40-65) catches
  every exception internally and returns an int or None, and the wrapper
  turns any remaining failure into None, so every behavior of the RPC
  dependency is an `Option Int`.
* `priceRows`: the `token_prices` per-source query (397-400), rows of
  `(source, MAX(timestamp))` with the timestamp possibly NULL.
* `pendingScalar`: the pending `price_requests` count (414-417).
* `outboxScalar`: the unpublished `outbox_events` count (439-442).
* `redis`: the Redis probe behavior. -/
structure Behavior where
  select1 : Except String (Option Int)
  indexerRow : Except String (Option (Option Int × Option Int))
  chainHead : Option Int
  priceRows : Except String (List (String × Option Int))
  pendingScalar : Except String (Option Int)
  outboxScalar : Except String (Option Int)
  redis : RedisBehavior

/-! ### The seven service entries of the forced-compute path -/

/-- Lines 276-281: the `api` self entry. -/
def apiEntry (now : Int) : ServiceResult :=
  ⟨"api", .ok, "FastAPI responding", [("time", .i now)]⟩

/-- Lines 283-299: the `postgres` entry (`SELECT 1` liveness query). -/
def postgresEntry (b : Behavior) : ServiceResult :=
  match b.select1 with
  | .error e => ⟨"postgres", .down, pyTruncate 200 e, []⟩
  | .ok one =>
    if one = some 1 then ⟨"postgres", .ok, "Connected", []⟩
    else ⟨"postgres", .down, "Query failed", []⟩

/-- Lines 301-306: the `redis` entry; `asyncio.wait_for(_probe_redis_status(),
timeout=0.8)` with any exception mapped to unknown/"timeout". -/
def redisEntry (rb : RedisBehavior) : ServiceResult :=
  if rb.outerTimedOut then ⟨"redis", .unknown, "timeout", []⟩
  else
    let r := _probe_redis_status rb
    ⟨"redis", r.1, r.2, []⟩

/-- Lines 308-320: the `rpc` entry, a dict literal (variable `rpc_status` in
the source). -/
def rpc_status : ServiceResult :=
  ⟨"rpc", .ok, "Frontend RPC monitoring active",
    [("monitored_chains", .arr [.s "1", .s "137", .s "42161", .s "10", .s "8453"]),
     ("health_check", .s "frontend_based"),
     ("note", .s "RPC health tracked by frontend error notifications")]⟩

/-- Lines 350-356: `block_lag`, computed only when a chain head was obtained
and the indexed block is positive. -/
def indexerBlockLag (chainHead : Option Int) (indexedBlock : Int) : Int :=
  match chainHead with
  | some head => if indexedBlock > 0 then max 0 (head - indexedBlock) else 0
  | none => 0

/-- Lines 350-356: `block_lag_status`, degraded exactly when the computed lag
exceeds 10. -/
def indexerBlockLagStatus (chainHead : Option Int) (indexedBlock : Int) : Status :=
  match chainHead with
  | some head =>
    if indexedBlock > 0 ∧ max 0 (head - indexedBlock) > 10 then .degraded else .ok
  | none => .ok

/-- Embeds Python `None`-or-int into `JVal`. -/
def jOfOptInt : Option Int → JVal
  | some n => .i n
  | none => .null

/-- Lines 322-386: the `indexer` entry. -/
def indexerEntry (now idx_ok idx_warn : Int) (b : Behavior) : ServiceResult :=
  match b.indexerRow with
  | .error e => ⟨"indexer", .unknown, pyTruncate 200 e, []⟩
  | .ok (some (some updated_at, last_block)) =>
    let age := max 0 (now - updated_at)
    let indexed_block := last_block.getD 0
    let age_status := _status_from_age age idx_ok idx_warn
    let block_lag := indexerBlockLag b.chainHead indexed_block
    let block_lag_status := indexerBlockLagStatus b.chainHead indexed_block
    let final_status :=
      if age_status = .down ∨ block_lag_status = .down then Status.down
      else if age_status = .degraded ∨ block_lag_status = .degraded then Status.degraded
      else Status.ok
    let detail :=
      match b.chainHead with
      | some _ =>
        "updated " ++ toString age ++ "s ago, " ++ toString block_lag ++ " blocks behind"
      | none => "updated " ++ toString age ++ "s ago"
    ⟨"indexer", final_status, detail,
      [("last_block", .i indexed_block), ("age_sec", .i age),
       ("chain_head", jOfOptInt b.chainHead), ("block_lag", .i block_lag)]⟩
  | .ok _ => ⟨"indexer", .down, "No indexer_state rows", []⟩

/-- Line 410 of `status.py`: `order = {"ok": 0, "degraded": 1, "down": 2}`
read with `order.get(st, 0)` (absent keys default to 0). -/
def statusOrder : Status → Nat
  | .ok => 0
  | .degraded => 1
  | .down => 2
  | .unknown => 0

/-- Python dict assignment `d[k] = v` on an association list: replaces the
value at an existing key in place, else appends. -/
def dictInsert (k : String) (v : JVal) : List (String × JVal) → List (String × JVal)
  | [] => [(k, v)]
  | (k', v') :: rest =>
    if k' = k then (k', v) :: rest else (k', v') :: dictInsert k v rest

/-- Lines 401-412: the per-source loop of the prices probe, producing the
`per_source` dict and the running `worst` status (initially ok). -/
def pricesScan (now price_ok price_warn : Int) (rows : List (String × Option Int)) :
    List (String × JVal) × Status :=
  rows.foldl
    (fun acc r =>
      let ts := r.2.getD 0
      let age := if ts > 0 then max 0 (now - ts) else 10 ^ 9
      let st := _status_from_age age price_ok price_warn
      let per_source :=
        dictInsert r.1 (.obj [("age_sec", .i age), ("status", .s st.text)]) acc.1
      let worst := if statusOrder st > statusOrder acc.2 then st else acc.2
      (per_source, worst))
    ([], .ok)

/-- Lines 388-429: the `prices` entry.  Both queries sit in one try block,
so an exception in either yields the unknown entry. -/
def pricesEntry (now price_ok price_warn : Int) (b : Behavior) : ServiceResult :=
  match b.priceRows with
  | .error e => ⟨"prices", .unknown, pyTruncate 200 e, []⟩
  | .ok rows =>
    match b.pendingScalar with
    | .error e => ⟨"prices", .unknown, pyTruncate 200 e, []⟩
    | .ok sc =>
      let scan := pricesScan now price_ok price_warn rows
      let pending := sc.getD 0
      let final_status :=
        if pending = 0 then Status.ok
        else if rows.isEmpty then Status.unknown else scan.2
      ⟨"prices", final_status, "pending: " ++ toString pending,
        [("pending", .i pending), ("sources", .obj scan.1)]⟩

/-- Lines 431-456: the `relay` entry (unpublished outbox backlog). -/
def relayEntry (relay_warn relay_crit : Int) (b : Behavior) : ServiceResult :=
  match b.outboxScalar with
  | .error e => ⟨"relay", .unknown, pyTruncate 200 e, []⟩
  | .ok sc =>
    let backlog := sc.getD 0
    let st :=
      if backlog ≥ relay_crit then Status.down
      else if backlog ≥ relay_warn then Status.degraded
      else Status.ok
    ⟨"relay", st, "unpublished: " ++ toString backlog, [("unpublished", .i backlog)]⟩

/-- Lines 265-469: the forced-compute path of `get_status` (`compute=True`),
assembling the seven service entries in source order and the result dict
(which carries no `"stale"` key). -/
def get_status_compute (now : Int) (cfg : Thresholds) (b : Behavior) : StatusSnapshot :=
  { generated_at := now
  , thresholds := cfg
  , services :=
      [ apiEntry now
      , postgresEntry b
      , redisEntry b.redis
      , rpc_status
      , indexerEntry now cfg.indexer_ok cfg.indexer_warn b
      , pricesEntry now cfg.price_ok cfg.price_warn b
      , relayEntry cfg.relay_warn cfg.relay_crit b ]
  , stale := none }

/-! ### Cache and refresh scheduler (lines 184-263) -/

/-- Line 186: `_STATUS_CACHE_TTL_SEC = 30.0`. -/
def _STATUS_CACHE_TTL_SEC : Int := 30

/-- Line 188: `_STATUS_REFRESH_MIN_INTERVAL_SEC = 5.0`. -/
def _STATUS_REFRESH_MIN_INTERVAL_SEC : Int := 5

/-- The module-level mutable state of `status.py` (lines 184-188):
`_STATUS_CACHE`, `_STATUS_CACHE_TS` and `_STATUS_REFRESH_IN_PROGRESS`. -/
structure CacheState where
  cache : Option StatusSnapshot
  cacheTs : Option Int
  inProgress : Bool

/-- The process-start state: no snapshot, no timestamp, no refresh in
flight. -/
def coldCacheState : CacheState := ⟨none, none, false⟩

/-- Lines 205-218: `_schedule_status_refresh`.  Returns the new state and
whether a background aggregation task was created.  `loopRunning` is whether
`asyncio.get_running_loop()` succeeds (the `except RuntimeError` branch resets
the flag and creates no task).  The debounce guard
`if _STATUS_CACHE_TS and (now - _STATUS_CACHE_TS) < ...` short-circuits on
Python float truthiness (`None` or `0` is falsy), embedded as the `Option`
match plus the `t ≠ 0` test. -/
def _schedule_status_refresh (now : Int) (loopRunning : Bool) (s : CacheState) :
    CacheState × Bool :=
  if s.inProgress then (s, false)
  else
    let start : CacheState × Bool :=
      if loopRunning then ({ s with inProgress := true }, true)
      else ({ s with inProgress := false }, false)
    match s.cacheTs with
    | some t =>
      if t ≠ 0 ∧ now - t < _STATUS_REFRESH_MIN_INTERVAL_SEC then (s, false) else start
    | none => start

/-- Lines 191-202: `_rebuild_status_cache`.  `outcome = some (snap, t)` is a
run of the forced-compute path that completed, writing snapshot `snap` with
cache timestamp `t` (the compute path itself performs the same write on lines
472-474); `outcome = none` is any exception in the try block (session
creation or the run itself), which writes nothing (`except ... pass`).  In
both cases the `finally` clause clears `in_progress`. -/
def _rebuild_status_cache (outcome : Option (StatusSnapshot × Int)) (s : CacheState) :
    CacheState :=
  match outcome with
  | some (snap, completedAt) =>
    { cache := some snap, cacheTs := some completedAt, inProgress := false }
  | none => { s with inProgress := false }

/-- Lines 243-263: the placeholder response returned when no cache exists. -/
def placeholderSnapshot (now : Int) (cfg : Thresholds) : StatusSnapshot :=
  { generated_at := now
  , thresholds := cfg
  , services :=
      [ ⟨"api", .ok, "FastAPI responding", [("time", .i now)]⟩
      , ⟨"postgres", .unknown, "loading", []⟩
      , ⟨"redis", .unknown, "loading", []⟩
      , ⟨"rpc", .unknown, "loading", []⟩
      , ⟨"indexer", .unknown, "loading", []⟩
      , ⟨"prices", .unknown, "loading", []⟩
      , ⟨"relay", .unknown, "loading", []⟩ ]
  , stale := some true }

/-- Lines 221-478: `get_status`.  `nowEpoch` is `_now_epoch()` taken on line
223, `wallNow` the `time.time()` clock used for cache bookkeeping.  Returns
the response, the updated module state, and whether a background refresh task
was created.  The non-compute path serves the cached snapshot (scheduling a
refresh when the cache timestamp is truthy and older than the TTL) or the
placeholder; the compute path runs `get_status_compute` and updates the cache
(lines 471-476). -/
def get_status (nowEpoch wallNow : Int) (loopRunning : Bool) (cfg : Thresholds)
    (b : Behavior) (s : CacheState) (compute : Bool) :
    StatusSnapshot × CacheState × Bool :=
  if compute then
    let result := get_status_compute nowEpoch cfg b
    (result, { cache := some result, cacheTs := some wallNow, inProgress := s.inProgress },
     false)
  else
    match s.cache with
    | some snap =>
      match s.cacheTs with
      | some t =>
        if t ≠ 0 ∧ wallNow - t > _STATUS_CACHE_TTL_SEC then
          let r := _schedule_status_refresh wallNow loopRunning s
          (snap, r.1, r.2)
        else (snap, s, false)
      | none => (snap, s, false)
    | none =>
      let r := _schedule_status_refresh wallNow loopRunning s
      (placeholderSnapshot nowEpoch cfg, r.1, r.2)

/-! ### Severity order from the spec, for the worst-of comparison -/

/-- Severity rank of the order ok < degraded < down; `unknown` carries no
signal. -/
def severityRank : Status → Nat
  | .ok => 0
  | .degraded => 1
  | .down => 2
  | .unknown => 0

/-- The worse of two statuses under the ok < degraded < down order. -/
def specWorse (a b : Status) : Status :=
  if severityRank a < severityRank b then b else a

/-! ### Sequential timing model of the forced-compute path -/

/-- Wall-clock duration (milliseconds) spent inside each awaited dependency
call of the forced-compute path of `get_status`, listed in the order the
source awaits them: `db.execute(SELECT 1)` (line 291, no timeout guard),
`asyncio.wait_for(_probe_redis_status(), 0.8)` (303), the `indexer_state`
query (330), `asyncio.wait_for(_get_chain_head_block(), 1.0)` (344), the
`token_prices` query (397), the `price_requests` count (414), and the
`outbox_events` count (439).  Each `await` completes (or times out) before
the next one starts. -/
structure ComputeAwaitDurations where
  dbSelect : Nat
  redisProbe : Nat
  indexerQuery : Nat
  chainHead : Nat
  priceLatest : Nat
  pricePending : Nat
  outboxCount : Nat

/-- Timeout of the guarded Redis probe await (0.8 s, line 303), in
milliseconds. -/
def redisProbeTimeoutMs : Nat := 800

/-- Timeout of the guarded chain-head await (1.0 s, line 344), in
milliseconds. -/
def chainHeadTimeoutMs : Nat := 1000

/-- Elapsed wall-clock time of one forced-compute run: the awaits are
strictly sequential in the source, so the durations add. -/
def computeElapsedMs (d : ComputeAwaitDurations) : Nat :=
  d.dbSelect + d.redisProbe + d.indexerQuery + d.chainHead +
    d.priceLatest + d.pricePending + d.outboxCount

/-- A duration assignment is admissible when every timeout-guarded await
takes at most its timeout (the unguarded database queries carry no bound in
the source). -/
def durationsAdmissible (d : ComputeAwaitDurations) : Prop :=
  d.redisProbe ≤ redisProbeTimeoutMs ∧ d.chainHead ≤ chainHeadTimeoutMs

/-! ### Concrete behaviors used as witnesses -/

/-- A Redis behavior in which every call succeeds. -/
def okRedis : RedisBehavior :=
  ⟨true, true, some "redis://localhost:6379/0", "events",
   .ok (), .ok (), .ok true, .ok (), .ok (), .ok true, false, false⟩

/-- A Redis behavior whose outer `wait_for` times out. -/
def failRedis : RedisBehavior :=
  ⟨true, true, some "redis://localhost:6379/0", "events",
   .error "boom", .error "boom", .error "boom",
   .error "boom", .error "boom", .error "boom", false, true⟩

/-- A run in which every dependency answers normally. -/
def okBehavior : Behavior :=
  ⟨.ok (some 1), .ok (some (some 0, some 100)), some 100,
   .ok [("odos", some 0)], .ok (some 0), .ok (some 0), okRedis⟩

/-- A run in which every dependency call raises. -/
def failBehavior : Behavior :=
  ⟨.error "db down", .error "idx down", none,
   .error "prices down", .error "pending down", .error "outbox down", failRedis⟩

/-- A run in which the price queries succeed but the pending-count query
raises. -/
def pendingFailBehavior : Behavior :=
  ⟨.ok (some 1), .ok none, none,
   .ok [("odos", some 0)], .error "pending down", .ok (some 0), okRedis⟩

/-- A run with an indexer checkpoint at epoch 0 and no obtainable chain
head. -/
def idxBehavior : Behavior :=
  ⟨.ok (some 1), .ok (some (some 0, some 5)), none, .ok [], .ok (some 0),
   .ok (some 0), okRedis⟩

/-- A run with one very old price source and zero pending requests. -/
def stalePricesBehavior : Behavior :=
  ⟨.ok (some 1), .ok none, none, .ok [("odos", some 1)], .ok (some 0),
   .ok (some 0), okRedis⟩

/-- A run with a relay backlog of 1500 unpublished events. -/
def relayBehavior : Behavior :=
  ⟨.ok (some 1), .ok none, none, .ok [], .ok (some 0), .ok (some 1500), okRedis⟩

/-! ## Helper lemmas -/

/-- Python slicing `s[:n]` yields at most `n` characters. -/
theorem pyTruncate_length_le (n : Nat) (s : String) : (pyTruncate n s).length ≤ n := by
  show (s.data.take n).length ≤ n
  rw [List.length_take]
  exact min_le_left _ _

/-- Every outcome of the Redis probe is either ok, or unknown/down with a
detail of at most 200 characters. -/
theorem probe_redis_contained (rb : RedisBehavior) :
    (_probe_redis_status rb).1 = .ok ∨
      (((_probe_redis_status rb).1 = .unknown ∨ (_probe_redis_status rb).1 = .down) ∧
        (_probe_redis_status rb).2.length ≤ 200) := by
  unfold _probe_redis_status
  repeat' split
  all_goals
    first
      | exact Or.inl rfl
      | exact Or.inr ⟨Or.inl rfl, by decide⟩
      | exact Or.inr ⟨Or.inr rfl, by decide⟩
      | exact Or.inr ⟨Or.inl rfl, pyTruncate_length_le 200 _⟩
      | exact Or.inr ⟨Or.inr rfl, pyTruncate_length_le 200 _⟩

/-- The `redis` entry including the outer timeout wrapper is either ok, or
unknown/down with a bounded detail. -/
theorem redis_entry_contained (rb : RedisBehavior) :
    (redisEntry rb).status = .ok ∨
      (((redisEntry rb).status = .unknown ∨ (redisEntry rb).status = .down) ∧
        (redisEntry rb).detail.length ≤ 200) := by
  unfold redisEntry
  split
  · exact Or.inr ⟨Or.inl rfl, by decide⟩
  · exact probe_redis_contained rb

theorem postgresEntry_name (b : Behavior) : (postgresEntry b).name = "postgres" := by
  unfold postgresEntry
  repeat' split
  all_goals rfl

theorem redisEntry_name (rb : RedisBehavior) : (redisEntry rb).name = "redis" := by
  unfold redisEntry
  split <;> rfl

theorem indexerEntry_name (now idx_ok idx_warn : Int) (b : Behavior) :
    (indexerEntry now idx_ok idx_warn b).name = "indexer" := by
  unfold indexerEntry
  repeat' split
  all_goals rfl

theorem pricesEntry_name (now price_ok price_warn : Int) (b : Behavior) :
    (pricesEntry now price_ok price_warn b).name = "prices" := by
  unfold pricesEntry
  repeat' split
  all_goals rfl

theorem relayEntry_name (relay_warn relay_crit : Int) (b : Behavior) :
    (relayEntry relay_warn relay_crit b).name = "relay" := by
  unfold relayEntry
  repeat' split
  all_goals rfl

/-- `_status_from_age` only produces ok, degraded or down. -/
theorem status_from_age_cases (age ok warn : Int) :
    _status_from_age age ok warn = .ok ∨ _status_from_age age ok warn = .degraded ∨
      _status_from_age age ok warn = .down := by
  unfold _status_from_age
  split_ifs <;> simp

/-- The block-lag sub-status is ok or degraded. -/
theorem indexerBlockLagStatus_cases (ch : Option Int) (ib : Int) :
    indexerBlockLagStatus ch ib = .ok ∨ indexerBlockLagStatus ch ib = .degraded := by
  unfold indexerBlockLagStatus
  split
  · split_ifs <;> simp
  · simp

/-- After a scheduler call, the state is either unchanged (no task created)
or the same state with the in-progress flag set. -/
theorem schedule_state_eq (now : Int) (loop : Bool) (s : CacheState) :
    (_schedule_status_refresh now loop s).1 =
      if (_schedule_status_refresh now loop s).2 then { s with inProgress := true }
      else s := by
  obtain ⟨c, ts, ip⟩ := s
  cases ip <;> cases loop <;> rcases ts with _ | t <;>
    simp only [_schedule_status_refresh] <;> repeat' split
  all_goals simp_all

/-! ## Claim theorems -/

/-- C1: for every behavior of the database, broker and RPC dependencies, the
forced-compute path returns a complete snapshot (all 7 services present) and
each probe whose execution raises yields a ServiceResult with status unknown
or down and a detail of at most 200 characters; no probe exception escapes
(every entry function is total over all behaviors). -/
theorem probe_failure_isolation (now : Int) (cfg : Thresholds) (b : Behavior) :
    (∀ e, b.select1 = .error e →
      (postgresEntry b).status = .down ∧ (postgresEntry b).detail.length ≤ 200)
  ∧ ((redisEntry b.redis).status ≠ .ok →
      ((redisEntry b.redis).status = .unknown ∨ (redisEntry b.redis).status = .down)
      ∧ (redisEntry b.redis).detail.length ≤ 200)
  ∧ (∀ e, b.indexerRow = .error e →
      (indexerEntry now cfg.indexer_ok cfg.indexer_warn b).status = .unknown
      ∧ (indexerEntry now cfg.indexer_ok cfg.indexer_warn b).detail.length ≤ 200)
  ∧ (∀ e, b.priceRows = .error e →
      (pricesEntry now cfg.price_ok cfg.price_warn b).status = .unknown
      ∧ (pricesEntry now cfg.price_ok cfg.price_warn b).detail.length ≤ 200)
  ∧ (∀ rows e, b.priceRows = .ok rows → b.pendingScalar = .error e →
      (pricesEntry now cfg.price_ok cfg.price_warn b).status = .unknown
      ∧ (pricesEntry now cfg.price_ok cfg.price_warn b).detail.length ≤ 200)
  ∧ (∀ e, b.outboxScalar = .error e →
      (relayEntry cfg.relay_warn cfg.relay_crit b).status = .unknown
      ∧ (relayEntry cfg.relay_warn cfg.relay_crit b).detail.length ≤ 200)
  ∧ (get_status_compute now cfg b).services.length = 7 := by
  refine ⟨?_, ?_, ?_, ?_, ?_, ?_, rfl⟩
  · intro e h
    simp [postgresEntry, h, pyTruncate_length_le]
  · intro hne
    rcases redis_entry_contained b.redis with h | h
    · exact absurd h hne
    · exact h
  · intro e h
    simp [indexerEntry, h, pyTruncate_length_le]
  · intro e h
    simp [pricesEntry, h, pyTruncate_length_le]
  · intro rows e h1 h2
    simp [pricesEntry, h1, h2, pyTruncate_length_le]
  · intro e h
    simp [relayEntry, h, pyTruncate_length_le]

/-- Witness for C1: a run in which every dependency call raises (and one in
which only the pending-count query raises) produces the contained failure
entries. -/
theorem probe_failure_isolation_witness :
    ((postgresEntry failBehavior).status = Status.down
      ∧ (postgresEntry failBehavior).detail.length ≤ 200)
  ∧ (((redisEntry failBehavior.redis).status = Status.unknown
        ∨ (redisEntry failBehavior.redis).status = Status.down)
      ∧ (redisEntry failBehavior.redis).detail.length ≤ 200)
  ∧ ((indexerEntry 0 defaultThresholds.indexer_ok defaultThresholds.indexer_warn
        failBehavior).status = Status.unknown
      ∧ (indexerEntry 0 defaultThresholds.indexer_ok defaultThresholds.indexer_warn
          failBehavior).detail.length ≤ 200)
  ∧ ((pricesEntry 0 defaultThresholds.price_ok defaultThresholds.price_warn
        failBehavior).status = Status.unknown
      ∧ (pricesEntry 0 defaultThresholds.price_ok defaultThresholds.price_warn
          failBehavior).detail.length ≤ 200)
  ∧ ((pricesEntry 0 defaultThresholds.price_ok defaultThresholds.price_warn
        pendingFailBehavior).status = Status.unknown
      ∧ (pricesEntry 0 defaultThresholds.price_ok defaultThresholds.price_warn
          pendingFailBehavior).detail.length ≤ 200)
  ∧ ((relayEntry defaultThresholds.relay_warn defaultThresholds.relay_crit
        failBehavior).status = Status.unknown
      ∧ (relayEntry defaultThresholds.relay_warn defaultThresholds.relay_crit
          failBehavior).detail.length ≤ 200) := by
  have h1 := probe_failure_isolation 0 defaultThresholds failBehavior
  have h2 := probe_failure_isolation 0 defaultThresholds pendingFailBehavior
  exact ⟨h1.1 "db down" rfl, h1.2.1 (by decide), h1.2.2.1 "idx down" rfl,
    h1.2.2.2.1 "prices down" rfl,
    h2.2.2.2.2.1 [("odos", some 0)] "pending down" rfl rfl,
    h1.2.2.2.2.2.1 "outbox down" rfl⟩

/-- C2: the forced-compute snapshot always lists exactly 7 services in the
fixed order api, postgres, redis, rpc, indexer, prices, relay, for every
dependency behavior. -/
theorem services_fixed_order (now : Int) (cfg : Thresholds) (b : Behavior) :
    (get_status_compute now cfg b).services.map ServiceResult.name
      = ["api", "postgres", "redis", "rpc", "indexer", "prices", "relay"]
  ∧ (get_status_compute now cfg b).services.length = 7 := by
  refine ⟨?_, rfl⟩
  simp [get_status_compute, apiEntry, rpc_status, postgresEntry_name, redisEntry_name,
    indexerEntry_name, pricesEntry_name, relayEntry_name]

/-- C3 counterexample: on a cold read (no cached snapshot) the placeholder
does NOT mark every service unknown — the api entry is ok, so the statuses
are not seven copies of unknown. -/
theorem cold_read_not_all_unknown :
    ¬ ((get_status 0 0 true defaultThresholds okBehavior coldCacheState
          false).1.services.map ServiceResult.status
        = List.replicate 7 Status.unknown) := by decide

/-- C3 amended: a cold read (no cached snapshot, no refresh in flight, a
running event loop) returns the placeholder snapshot with stale set to true
in which every service except the api self-entry is unknown with detail
"loading" (the api entry is ok with detail "FastAPI responding"), and starts
exactly one background refresh (the task-created flag is true and the
in-progress flag becomes true). -/
theorem cold_read_placeholder (nowE wallNow : Int) (cfg : Thresholds) (b : Behavior) :
    get_status nowE wallNow true cfg b coldCacheState false
      = (placeholderSnapshot nowE cfg, ⟨none, none, true⟩, true)
  ∧ (placeholderSnapshot nowE cfg).stale = some true
  ∧ (placeholderSnapshot nowE cfg).services.map
        (fun sv => (sv.name, sv.status, sv.detail))
      = [("api", Status.ok, "FastAPI responding"),
         ("postgres", Status.unknown, "loading"),
         ("redis", Status.unknown, "loading"),
         ("rpc", Status.unknown, "loading"),
         ("indexer", Status.unknown, "loading"),
         ("prices", Status.unknown, "loading"),
         ("relay", Status.unknown, "loading")] :=
  ⟨rfl, rfl, rfl⟩

/-- C4 counterexample: from the cold state, a trigger at time 0 starts a run;
after that run fails (no cache write), a second trigger at time 1 — within
the 5-second minimum interval of the first — starts a second run, so two
triggers within the interval start two aggregation runs. -/
theorem refresh_debounce_counterexample :
    (_schedule_status_refresh 0 true coldCacheState).2 = true
  ∧ (_schedule_status_refresh 1 true
      (_rebuild_status_cache none (_schedule_status_refresh 0 true coldCacheState).1)).2
      = true
  ∧ (1 : Int) - 0 < _STATUS_REFRESH_MIN_INTERVAL_SEC := by decide

/-- C4 amended: a refresh is started only when in_progress is false and,
when a nonzero cached-snapshot timestamp exists, at least
min_refresh_interval has elapsed since that last successful cache write (not
since the last trigger); two triggers with no intervening completion start at
most one run, and a trigger within the interval of a successful completion
starts none — but after a failed refresh the debounce clock is unchanged. -/
theorem refresh_debounce_amended :
    (∀ (now : Int) (loop : Bool) (s : CacheState),
        (_schedule_status_refresh now loop s).2 = true →
          s.inProgress = false ∧
          ∀ t, s.cacheTs = some t → t ≠ 0 →
            _STATUS_REFRESH_MIN_INTERVAL_SEC ≤ now - t)
  ∧ (∀ (t1 t2 : Int) (l1 l2 : Bool) (s : CacheState),
        ¬((_schedule_status_refresh t1 l1 s).2 = true ∧
          (_schedule_status_refresh t2 l2 (_schedule_status_refresh t1 l1 s).1).2 = true))
  ∧ (∀ (snap : StatusSnapshot) (tc now : Int) (loop : Bool) (s : CacheState),
        tc ≠ 0 → now - tc < _STATUS_REFRESH_MIN_INTERVAL_SEC →
        (_schedule_status_refresh now loop
          (_rebuild_status_cache (some (snap, tc)) s)).2 = false) := by
  refine ⟨?_, ?_, ?_⟩
  · intro now loop s h
    obtain ⟨c, ts, ip⟩ := s
    cases ip
    · refine ⟨rfl, ?_⟩
      rcases ts with _ | t
      · intro t ht
        cases ht
      · intro t' ht'
        injection ht' with hh
        subst hh
        intro hne
        by_contra hlt
        push_neg at hlt
        simp [_schedule_status_refresh, hne, hlt] at h
    · simp [_schedule_status_refresh] at h
  · rintro t1 t2 l1 l2 s ⟨h1, h2⟩
    have hst := schedule_state_eq t1 l1 s
    rw [h1] at hst
    simp only [if_true] at hst
    rw [hst] at h2
    simp [_schedule_status_refresh] at h2
  · intro snap tc now loop s hne hlt
    simp [_rebuild_status_cache, _schedule_status_refresh, hne, hlt]

/-- Witness for C4 amended: the cold state has in_progress false, and a
trigger 2 seconds after a successful refresh completion starts no run. -/
theorem refresh_debounce_amended_witness :
    coldCacheState.inProgress = false
  ∧ (_schedule_status_refresh 3 true
      (_rebuild_status_cache (some (placeholderSnapshot 0 defaultThresholds, 1))
        coldCacheState)).2 = false := by
  refine ⟨?_, ?_⟩
  · exact (refresh_debounce_amended.1 0 true coldCacheState (by decide)).1
  · exact refresh_debounce_amended.2.2 (placeholderSnapshot 0 defaultThresholds) 1 3 true
      coldCacheState (by decide) (by decide)

/-- C5 counterexample: the forced-compute result dict does not contain a
stale field set to false — it has no stale key at all (shown here on a run in
which every dependency answers normally). -/
theorem compute_snapshot_stale_counterexample :
    ¬ ((get_status_compute 0 defaultThresholds okBehavior).stale = some false) := by
  decide

/-- C5 amended: every snapshot produced by the forced-compute aggregation
path omits the stale field entirely (the stale key is absent, not false);
only the cold-start placeholder carries a stale field. -/
theorem compute_snapshot_no_stale_field (now : Int) (cfg : Thresholds) (b : Behavior) :
    (get_status_compute now cfg b).stale = none := rfl

/-- C6: whenever indexer_state rows exist (the aggregate row has a non-NULL
updated_at), the indexer status is the worse — under ok < degraded < down —
of the age-based sub-status and the lag-based sub-status (degraded when the
block lag exceeds 10, else ok). -/
theorem indexer_status_worst_of (now idx_ok idx_warn : Int) (b : Behavior)
    (u : Int) (lb : Option Int)
    (h : b.indexerRow = .ok (some (some u, lb))) :
    (indexerEntry now idx_ok idx_warn b).status =
      specWorse (_status_from_age (max 0 (now - u)) idx_ok idx_warn)
        (indexerBlockLagStatus b.chainHead (lb.getD 0)) := by
  simp only [indexerEntry, h]
  rcases status_from_age_cases (max 0 (now - u)) idx_ok idx_warn with h1 | h1 | h1 <;>
    rcases indexerBlockLagStatus_cases b.chainHead (lb.getD 0) with h2 | h2 <;>
      simp [h1, h2, specWorse, severityRank]

/-- Witness for C6: indexer age 45 s with thresholds ok=30, warn=120 and no
obtainable chain head (no worse lag signal) yields degraded. -/
theorem indexer_status_worst_of_witness :
    (indexerEntry 45 30 120 idxBehavior).status = Status.degraded := by
  rw [indexer_status_worst_of 45 30 120 idxBehavior 0 (some 5) rfl]
  decide

/-- C7: whenever both price queries succeed and the pending price-request
count is zero, the prices status is ok regardless of the per-source
observation ages. -/
theorem prices_ok_when_no_pending (now price_ok price_warn : Int) (b : Behavior)
    (rows : List (String × Option Int)) (p : Option Int)
    (h1 : b.priceRows = .ok rows) (h2 : b.pendingScalar = .ok p)
    (h3 : p.getD 0 = 0) :
    (pricesEntry now price_ok price_warn b).status = Status.ok := by
  simp [pricesEntry, h1, h2, h3]

/-- Witness for C7: a source last seen at epoch 1 observed at epoch 10^9
(hopelessly stale) still yields ok because nothing is pending. -/
theorem prices_ok_when_no_pending_witness :
    (pricesEntry 1000000000 600 1800 stalePricesBehavior).status = Status.ok :=
  prices_ok_when_no_pending 1000000000 600 1800 stalePricesBehavior
    [("odos", some 1)] (some 0) rfl rfl rfl

/-- C8: with c the unpublished-outbox count (and warn ≤ crit, as in the
default configuration), the relay status is degraded iff warn ≤ c < crit,
down iff c ≥ crit, and ok iff c < warn. -/
theorem relay_status_mapping (relay_warn relay_crit : Int)
    (hwc : relay_warn ≤ relay_crit) (b : Behavior) (sc : Option Int)
    (h : b.outboxScalar = .ok sc) :
    ((relayEntry relay_warn relay_crit b).status = Status.degraded ↔
        relay_warn ≤ sc.getD 0 ∧ sc.getD 0 < relay_crit)
  ∧ ((relayEntry relay_warn relay_crit b).status = Status.down ↔
        relay_crit ≤ sc.getD 0)
  ∧ ((relayEntry relay_warn relay_crit b).status = Status.ok ↔
        sc.getD 0 < relay_warn) := by
  simp only [relayEntry, h]
  split_ifs with hc hw <;> refine ⟨?_, ?_, ?_⟩ <;> simp <;> omega

/-- Witness for C8: backlog 1500 with warn=100, crit=1000 yields down. -/
theorem relay_status_mapping_witness :
    (relayEntry 100 1000 relayBehavior).status = Status.down :=
  (relay_status_mapping 100 1000 (by decide) relayBehavior (some 1500) rfl).2.1.mpr
    (by decide)

/-- C9 counterexample: the forced-compute path awaits its dependency calls
sequentially, so its wall-clock time is not bounded by the maximum of the
individual probe timeouts: an admissible run in which the redis probe takes
its full 0.8 s and the chain-head call its full 1.0 s lasts 1.8 s. -/
theorem compute_not_bounded_by_max_timeout :
    ¬ (∀ d : ComputeAwaitDurations, durationsAdmissible d →
        computeElapsedMs d ≤ max redisProbeTimeoutMs chainHeadTimeoutMs) := by
  intro h
  exact absurd (h ⟨0, 800, 0, 1000, 0, 0, 0⟩ ⟨by decide, by decide⟩) (by decide)

/-- C9 amended: the probes are awaited one after another, so the run's
wall-clock time is the sum of the awaited durations: it is bounded by the sum
of the two guarded timeouts (0.8 s + 1.0 s) plus the durations of the
unguarded database queries — the sum, not the max, of the probe timeouts. -/
theorem compute_sequential_sum_bound (d : ComputeAwaitDurations)
    (h : durationsAdmissible d) :
    computeElapsedMs d ≤
      d.dbSelect + d.indexerQuery + d.priceLatest + d.pricePending + d.outboxCount +
        (redisProbeTimeoutMs + chainHeadTimeoutMs) := by
  obtain ⟨h1, h2⟩ := h
  unfold computeElapsedMs redisProbeTimeoutMs chainHeadTimeoutMs at *
  omega

/-- Witness for C9 amended: the maximal admissible guarded durations reach
exactly the sum of the two timeouts. -/
theorem compute_sequential_sum_bound_witness :
    computeElapsedMs ⟨0, 800, 0, 1000, 0, 0, 0⟩ ≤
      0 + 0 + 0 + 0 + 0 + (redisProbeTimeoutMs + chainHeadTimeoutMs) :=
  compute_sequential_sum_bound ⟨0, 800, 0, 1000, 0, 0, 0⟩ ⟨by decide, by decide⟩

/-- C10: the rpc service entry of every forced-compute run is the constant
dict rpc_status — status ok, detail "Frontend RPC monitoring active", fixed
metrics — independent of every dependency behavior, and the chain-head value
influences no entry other than the indexer entry (dropping the indexer entry,
the snapshot is unchanged under any change of the chain-head outcome). -/
theorem rpc_entry_constant (now : Int) (cfg : Thresholds) (b : Behavior)
    (ch : Option Int) :
    (get_status_compute now cfg b).services.get? 3 = some rpc_status
  ∧ rpc_status.status = Status.ok
  ∧ rpc_status.detail = "Frontend RPC monitoring active"
  ∧ List.eraseIdx (get_status_compute now cfg { b with chainHead := ch }).services 4
      = List.eraseIdx (get_status_compute now cfg b).services 4 :=
  ⟨rfl, rfl, rfl, rfl⟩

end Monitoring
